import Mathlib

/-!
Verification of the shared-struct / shared-enum code generation engine of the
swift-bridge repository (files `src/crates/swift-bridge-ir/src/bridged_type/shared_struct.rs`
and `src/crates/swift-bridge-ir/src/codegen/generate_rust_tokens/shared_enum.rs`).

The code generators are embedded shallowly: each Rust function that produces a
token stream or a string of generated code becomes a Lean function producing a
`String` (token streams are rendered to a canonical textual form).  A `todo!()`
panic in the Rust source is modelled as `Except.error GenError.todoUnsupported`.
The external type classifier (`BridgedType`, declared outside the provided
sources) is modelled from the spec as a small closed universe `RustTy` of field
types together with the four conversion directions.  Generated code whose
run-time behaviour is claimed (round-trips, the optional-enum wrapper) is
additionally given a denotational model, with a doc comment pointing at the
emitting source lines.
-/

namespace SwiftBridge

/-- The global symbol tag put on every ABI-facing name
(the constant named SWIFT_BRIDGE_PREFIX in the source). -/
def swiftBridgePfx : String := "__swift_bridge__"

/-- A `todo!()` panic in the Rust source: generation aborts with no output. -/
inductive GenError
  | todoUnsupported
  deriving DecidableEq

instance {ε α : Type} [DecidableEq ε] [DecidableEq α] : DecidableEq (Except ε α) := fun x y =>
  match x, y with
  | .ok a, .ok b =>
      if h : a = b then isTrue (by rw [h])
      else isFalse (fun hc => h (Except.ok.inj hc))
  | .ok _, .error _ => isFalse (fun hc => Except.noConfusion hc)
  | .error _, .ok _ => isFalse (fun hc => Except.noConfusion hc)
  | .error e, .error f =>
      if h : e = f then isTrue (by rw [h])
      else isFalse (fun hc => h (Except.error.inj hc))

/-- Modelled from the spec: the host language marker used by `TypePosition::FnArg`. -/
inductive HostLang
  | Rust
  | Swift
  deriving DecidableEq

/-- Modelled from the spec: the type-position argument threaded to the classifier
(only the two constructors used by `shared_struct.rs` are needed). -/
inductive TypePosition
  | SharedStructField
  | FnArg (lang : HostLang) (idx : Nat)
  deriving DecidableEq

/-- Modelled from the spec: the external type classifier's universe of resolvable
field types (`BridgedType`): primitive scalars, the owned text type, and
locally declared shared types referenced by name. -/
inductive RustTy
  | i32
  | u8
  | f64
  | text
  | named (name : String)
  deriving DecidableEq

namespace RustTy

/-- Modelled from the spec: `BridgedType::to_rust_type_path` rendered to a string
(the Rust-side path of the native type; a declared shared type's path is its name). -/
def pathString : RustTy → String
  | .i32 => "i32"
  | .u8 => "u8"
  | .f64 => "f64"
  | .text => "String"
  | .named n => n

/-- Modelled from the spec: `BridgedType::to_swift_type` (the client-side type name). -/
def to_swift_type (ty : RustTy) (_type_pos : TypePosition) : String :=
  match ty with
  | .i32 => "Int32"
  | .u8 => "UInt8"
  | .f64 => "Double"
  | .text => "RustString"
  | .named n => n

/-- Modelled from the spec: `BridgedType::to_ffi_compatible_rust_type`
(the ABI-safe Rust type token for a field). -/
def to_ffi_compatible_rust_type : RustTy → String
  | .i32 => "i32"
  | .u8 => "u8"
  | .f64 => "f64"
  | .text => "*mut RustString"
  | .named n => swiftBridgePfx ++ n

/-- Modelled from the spec: `BridgedType::to_c` (the C-level encoding of a field type). -/
def to_c : RustTy → String
  | .i32 => "int32_t"
  | .u8 => "uint8_t"
  | .f64 => "double"
  | .text => "void*"
  | .named n => "struct " ++ swiftBridgePfx ++ "$" ++ n

/-- Modelled from the spec: the classifier's native-to-ABI conversion of a Rust
expression (`BridgedType::convert_rust_expression_to_ffi_type`): scalars pass
through, owned text is boxed, declared shared types use their own method. -/
def convert_rust_expression_to_ffi_type (ty : RustTy) (expression : String) : String :=
  match ty with
  | .i32 => expression
  | .u8 => expression
  | .f64 => expression
  | .text => "RustString(" ++ expression ++ ").box()"
  | .named _ => expression ++ ".into_ffi_repr()"

/-- Modelled from the spec: the classifier's ABI-to-native conversion of a Rust
expression (`BridgedType::convert_ffi_expression_to_rust_type`). -/
def convert_ffi_expression_to_rust_type (ty : RustTy) (expression : String) : String :=
  match ty with
  | .i32 => expression
  | .u8 => expression
  | .f64 => expression
  | .text => "unsafe \x7b Box::from_raw(" ++ expression ++ ").0 \x7d"
  | .named _ => expression ++ ".into_rust_repr()"

/-- Modelled from the spec: the classifier's client-to-ABI text conversion
(`BridgedType::convert_swift_expression_to_ffi_type`). -/
def convert_swift_expression_to_ffi_type (ty : RustTy) (expression : String)
    (_type_pos : TypePosition) : String :=
  match ty with
  | .i32 => expression
  | .u8 => expression
  | .f64 => expression
  | .text => "\x7b " ++ expression ++ ".isOwned = false; return " ++ expression ++ ".ptr \x7d()"
  | .named _ => expression ++ ".intoFfiRepr()"

/-- Modelled from the spec: the classifier's ABI-to-client text conversion
(`BridgedType::convert_ffi_value_to_swift_value`). -/
def convert_ffi_value_to_swift_value (ty : RustTy) (expression : String)
    (_type_pos : TypePosition) : String :=
  match ty with
  | .i32 => expression
  | .u8 => expression
  | .f64 => expression
  | .text => "RustString(ptr: " ++ expression ++ ")"
  | .named _ => expression ++ ".intoSwiftRepr()"

/-- Modelled from the spec: the classifier's recursive owned-text query
(`BridgedType::contains_owned_string_recursive`) restricted to the field
universe used here. -/
def contains_owned_string_recursive : RustTy → Bool
  | .text => true
  | _ => false

end RustTy

/-- A named struct field (`StructField` with an identifier, from the
`struct_field` module whose file is not part of the provided sources;
modelled from the spec: `Named(ordered list of (identifier, type))`). -/
structure NamedStructField where
  name : String
  ty : RustTy
  deriving DecidableEq

/-- An unnamed (positional) struct field (`UnnamedStructField { ty, idx }`). -/
structure UnnamedStructField where
  ty : RustTy
  idx : Nat
  deriving DecidableEq

/-- The three field shapes of a struct or of an enum variant
(`StructFields::{Named, Unnamed, Unit}`). -/
inductive StructFields
  | Named (fields : List NamedStructField)
  | Unnamed (fields : List UnnamedStructField)
  | Unit
  deriving DecidableEq

/-- Modelled from the spec: one entry of `StructFields::normalized_fields()`
(from the missing `struct_field.rs`): the field accessor suffix (`.x` / `.0`),
the ABI field name (`x` / `_0`), the optional `name:` head of a literal entry,
and the field's declared type. -/
structure NormalizedField where
  accessor : String
  ffiFieldName : String
  nameAndColon : String
  ty : RustTy
  deriving DecidableEq

namespace StructFields

/-- Modelled from the spec: `StructFields::normalized_fields()` — one normalized
entry per declared field, in declaration order; a unit shape has none. -/
def normalized_fields : StructFields → List NormalizedField
  | .Named fs => fs.map (fun f => ⟨"." ++ f.name, f.name, f.name ++ ": ", f.ty⟩)
  | .Unnamed fs => fs.map (fun f => ⟨"." ++ toString f.idx, "_" ++ toString f.idx, "", f.ty⟩)
  | .Unit => []

/-- Modelled from the spec: `StructFields::is_empty()`. -/
def is_empty : StructFields → Bool
  | .Named fs => fs.isEmpty
  | .Unnamed fs => fs.isEmpty
  | .Unit => true

/-- Modelled from the spec: `StructFields::empty_field_wrapper()` — the literal
tail of a fieldless value in each shape. -/
def empty_field_wrapper : StructFields → String
  | .Named _ => "\x7b\x7d"
  | .Unnamed _ => "()"
  | .Unit => ""

end StructFields

/-- The field shapes a tuple cannot carry (tuples are defined to be positional):
named or unit fields. -/
def isNamedOrUnitShape : StructFields → Bool
  | .Named _ => true
  | .Unnamed _ => false
  | .Unit => true

/-- The field shape an enum variant cannot carry: named fields. -/
def isNamedShape : StructFields → Bool
  | .Named _ => true
  | .Unnamed _ => false
  | .Unit => false

/-- `StructSwiftRepr`: whether the client representation is a class or a structure. -/
inductive StructSwiftRepr
  | Class
  | Structure
  deriving DecidableEq

/-- `SharedStruct`: a struct declaration as consumed by the struct engine. -/
structure SharedStruct where
  name : String
  swift_repr : StructSwiftRepr
  fields : StructFields
  swift_name : Option String
  already_declared : Bool
  is_tuple : Bool
  deriving DecidableEq

/-- `OnlyEncoding`: the two literal texts of the unique value of an
only-encoding type. -/
structure OnlyEncoding where
  swift : String
  rust : String
  deriving DecidableEq

namespace SharedStruct

/-- `SharedStruct::combine_field_types_swift_name_with_type_pos` (lines 323-335):
joins each field type's client name; `todo!()` on named or unit shapes. -/
def combine_field_types_swift_name_with_type_pos (s : SharedStruct)
    (type_pos : TypePosition) : Except GenError String :=
  match s.fields with
  | .Named _ => .error .todoUnsupported
  | .Unnamed fs =>
      .ok ("(" ++ String.intercalate ", " (fs.map (fun f => f.ty.to_swift_type type_pos)) ++ ")")
  | .Unit => .error .todoUnsupported

/-- `SharedStruct::combine_field_types_swift_name` (lines 337-349): as above but
each field is positioned as a Rust-side function argument at its index. -/
def combine_field_types_swift_name (s : SharedStruct) : Except GenError String :=
  match s.fields with
  | .Named _ => .error .todoUnsupported
  | .Unnamed fs =>
      .ok ("(" ++ String.intercalate ", "
        (fs.enum.map (fun p => p.2.ty.to_swift_type (.FnArg .Rust p.1))) ++ ")")
  | .Unit => .error .todoUnsupported

/-- `SharedStruct::combine_field_types_string` (lines 351-357): the tuple
mangling — the fold of every field type's Rust path string onto `""` by plain
concatenation; `todo!()` on named or unit shapes. -/
def combine_field_types_string (s : SharedStruct) : Except GenError String :=
  match s.fields with
  | .Named _ => .error .todoUnsupported
  | .Unnamed fs => .ok (fs.foldl (fun sum f => sum ++ f.ty.pathString) "")
  | .Unit => .error .todoUnsupported

/-- `SharedStruct::combine_field_types_tokens` (lines 359-365): each field
type's Rust path, one token per field. -/
def combine_field_types_tokens (s : SharedStruct) : Except GenError (List String) :=
  match s.fields with
  | .Named _ => .error .todoUnsupported
  | .Unnamed fs => .ok (fs.map (fun f => f.ty.pathString))
  | .Unit => .error .todoUnsupported

/-- `SharedStruct::to_swift_type` (lines 28-36). -/
def to_swift_type (s : SharedStruct) (type_pos : TypePosition) : Except GenError String :=
  if s.is_tuple then s.combine_field_types_swift_name_with_type_pos type_pos
  else .ok (match s.swift_name with | some ty => ty | none => s.name)

/-- `SharedStruct::swift_name_string` (lines 38-46). -/
def swift_name_string (s : SharedStruct) : Except GenError String :=
  if s.is_tuple then s.combine_field_types_swift_name
  else .ok (match s.swift_name with | some ty => ty | none => s.name)

/-- `SharedStruct::ffi_name_string` (lines 48-55): tuples get
`PREFIX$name$mangledtypes`, other structs `PREFIX$swiftname`. -/
def ffi_name_string (s : SharedStruct) : Except GenError String :=
  if s.is_tuple then
    match s.combine_field_types_string with
    | .error e => .error e
    | .ok combined => .ok (swiftBridgePfx ++ "$" ++ s.name ++ "$" ++ combined)
  else
    match s.swift_name_string with
    | .error e => .error e
    | .ok name => .ok (swiftBridgePfx ++ "$" ++ name)

/-- `SharedStruct::ffi_name_tokens` (lines 57-66): the prefixed Rust identifier. -/
def ffi_name_tokens (s : SharedStruct) : String :=
  swiftBridgePfx ++ s.name

/-- `SharedStruct::only_encoding` (lines 89-102): `Some` exactly when the struct
has no fields and is newly declared; builds the unique value's two literals
(the Swift literal goes through `swift_name_string`, which aborts for
malformed tuples). -/
def only_encoding (s : SharedStruct) : Except GenError (Option OnlyEncoding) :=
  if !s.fields.is_empty || s.already_declared then .ok none
  else
    match s.swift_name_string with
    | .error e => .error e
    | .ok swiftName =>
        .ok (some { swift := swiftName ++ "()"
                    rust := s.name ++ " " ++ s.fields.empty_field_wrapper })

/-- `SharedStruct::wrap_fields` (lines 287-304): brace list for named shapes,
positional list for unnamed, nothing for unit. -/
def wrap_fields (s : SharedStruct) (fields : List String) : String :=
  match s.fields with
  | .Named _ => "\x7b " ++ String.intercalate ", " fields ++ " \x7d"
  | .Unnamed _ => "( " ++ String.intercalate ", " fields ++ " )"
  | .Unit => ""

/-- `SharedStruct::convert_ffi_repr_to_rust` (lines 107-148): rebuild the native
literal, binding the ABI value once to `val` when there are fields. -/
def convert_ffi_repr_to_rust (s : SharedStruct) (rust_val : String) : String :=
  let convertedFields := s.fields.normalized_fields.map
    (fun f => f.nameAndColon ++ f.ty.convert_ffi_expression_to_rust_type ("val" ++ f.accessor))
  let wrapped := s.wrap_fields convertedFields
  if s.fields.is_empty then
    s.name ++ " " ++ wrapped
  else
    "\x7b let val = " ++ rust_val ++ "; " ++ s.name ++ " " ++ wrapped ++ " \x7d"

/-- The conversion body inside `SharedStruct::generate_into_ffi_repr_method`
(lines 157-191): a zero-field struct becomes the ABI literal with the single
filler field `_private: 123`; otherwise the source expression is bound once to
`val` and every field is projected through its own type's conversion. -/
def into_ffi_repr_body (s : SharedStruct) (expression : String) : String :=
  let convertedFields := s.fields.normalized_fields.map
    (fun f => f.nameAndColon ++ f.ty.convert_rust_expression_to_ffi_type ("val" ++ f.accessor))
  if s.fields.is_empty then
    s.ffi_name_tokens ++ " \x7b _private: 123 \x7d"
  else
    "\x7b let val = " ++ expression ++ "; " ++ s.ffi_name_tokens ++ " "
      ++ s.wrap_fields convertedFields ++ " \x7d"

/-- `SharedStruct::generate_into_ffi_repr_method` (lines 150-202): the emitted
`impl` block around `into_ffi_repr_body`. -/
def generate_into_ffi_repr_method (s : SharedStruct) (expression : String) : String :=
  "impl " ++ s.name ++ " \x7b pub fn into_ffi_repr(self) -> " ++ swiftBridgePfx ++ s.name
    ++ " \x7b " ++ s.into_ffi_repr_body expression ++ " \x7d \x7d"

/-- `SharedStruct::convert_swift_to_ffi_repr` (lines 204-243): the Swift-side
client-to-ABI conversion text; for a zero-field struct the ABI marker
constructor is invoked directly with the filler field. -/
def convert_swift_to_ffi_repr (s : SharedStruct) (expression : String) :
    Except GenError String :=
  match s.ffi_name_string with
  | .error e => .error e
  | .ok structName =>
      let convertedFields := String.intercalate ", " (s.fields.normalized_fields.map
        (fun f => f.ffiFieldName ++ ": "
          ++ f.ty.convert_swift_expression_to_ffi_type ("val." ++ f.ffiFieldName)
              .SharedStructField))
      if s.fields.is_empty then
        .ok (structName ++ "(_private: 123)")
      else
        .ok ("\x7b let val = " ++ expression ++ "; return " ++ structName ++ "("
          ++ convertedFields ++ "); \x7d()")

/-- `SharedStruct::convert_ffi_expression_to_swift` (lines 245-285). -/
def convert_ffi_expression_to_swift (s : SharedStruct) (expression : String) :
    Except GenError String :=
  match s.swift_name_string with
  | .error e => .error e
  | .ok structName =>
      let convertedFields := String.intercalate ", " (s.fields.normalized_fields.map
        (fun f => f.ffiFieldName ++ ": "
          ++ f.ty.convert_ffi_value_to_swift_value ("val." ++ f.ffiFieldName)
              .SharedStructField))
      if s.fields.is_empty then
        .ok (structName ++ "()")
      else
        .ok ("\x7b let val = " ++ expression ++ "; return " ++ structName ++ "("
          ++ convertedFields ++ "); \x7d()")

/-- `SharedStruct::tuple_from` (lines 306-321), without the `Option` wrapper:
the synthesized anonymous tuple declaration for an ordered type sequence. -/
def tuple_from_struct (types : List RustTy) : SharedStruct :=
  { name := "tuple"
    swift_repr := .Structure
    fields := .Unnamed (types.enum.map (fun p => { ty := p.2, idx := p.1 }))
    swift_name := none
    already_declared := false
    is_tuple := true }

/-- `SharedStruct::tuple_from` (lines 306-321): always `Some`. -/
def tuple_from (types : List RustTy) : Option SharedStruct :=
  some (tuple_from_struct types)

/-- `SharedStruct::generate_prefixed_type_name_tokens` (lines 367-398),
restricted to newly declared types (the `already_declared` arm delegates to the
external trait). -/
def generate_prefixed_type_name_tokens (s : SharedStruct) : Except GenError String :=
  if s.is_tuple then
    match s.combine_field_types_string with
    | .error e => .error e
    | .ok combined => .ok (swiftBridgePfx ++ s.name ++ "_" ++ combined)
  else
    .ok (swiftBridgePfx ++ s.name)

/-- `SharedStruct::convert_ffi_expression_to_rust_type` (lines 400-424): for a
tuple, project every normalized field of the ABI value into a positional Rust
tuple expression; otherwise call the generated `into_rust_repr`. -/
def convert_ffi_expression_to_rust_type (s : SharedStruct) (value : String) : String :=
  if s.is_tuple then
    "(" ++ String.intercalate ", "
      (s.fields.normalized_fields.map (fun f => value ++ f.accessor)) ++ ")"
  else
    value ++ ".into_rust_repr()"

/-- `SharedStruct::convert_rust_expression_to_ffi_type` (lines 426-445): an
only-encoding struct is evaluated and discarded; a tuple binds the expression
to `val` and then — verbatim in the source — applies the constructor to the
hardcoded arguments `val.0, val.1`; otherwise `into_ffi_repr` is called. -/
def convert_rust_expression_to_ffi_type (s : SharedStruct) (expression : String) :
    Except GenError String :=
  match s.only_encoding with
  | .error e => .error e
  | .ok onlyEnc =>
      if onlyEnc.isSome then
        .ok ("\x7b " ++ expression ++ "; \x7d")
      else if s.is_tuple then
        match s.combine_field_types_string with
        | .error e => .error e
        | .ok combined =>
            .ok ("let val = " ++ expression ++ "; " ++ swiftBridgePfx ++ s.name ++ "_"
              ++ combined ++ "(val.0, val.1)")
      else
        .ok (expression ++ ".into_ffi_repr()")

/-- `SharedStruct::generate_custom_rust_ffi_type` (lines 447-463): the
`#[repr(C)]` positional ABI struct for a tuple, one field per declared field. -/
def generate_custom_rust_ffi_type (s : SharedStruct) : Except GenError (Option String) :=
  if s.is_tuple then
    match s.combine_field_types_string with
    | .error e => .error e
    | .ok combinedString =>
        match s.combine_field_types_tokens with
        | .error e => .error e
        | .ok combinedTokens =>
            .ok (some ("#[repr(C)] pub struct " ++ swiftBridgePfx ++ s.name ++ "_"
              ++ combinedString ++ "(" ++ String.intercalate ", " combinedTokens ++ ");"))
  else .ok none

/-- `SharedStruct::convert_ffi_expression_to_swift_type` (lines 465-484). -/
def convert_ffi_expression_to_swift_type (s : SharedStruct) (expression : String)
    (type_pos : TypePosition) : Except GenError String :=
  match s.only_encoding with
  | .error e => .error e
  | .ok (some only) =>
      .ok ("\x7b let _ = " ++ expression ++ "; return " ++ only.swift ++ " \x7d()")
  | .ok none =>
      if s.is_tuple then
        match s.fields with
        | .Named _ => .error .todoUnsupported
        | .Unnamed fs =>
            .ok ("let val = " ++ expression ++ "; return ("
              ++ String.intercalate ", " (fs.enum.map
                (fun p => p.2.ty.convert_ffi_value_to_swift_value ("val._" ++ toString p.1)
                  type_pos)) ++ ");")
        | .Unit => .error .todoUnsupported
      else
        .ok (expression ++ ".intoSwiftRepr()")

/-- `SharedStruct::convert_swift_expression_to_ffi_type` (lines 485-507): the
tuple branch is checked first and `todo!()`s on non-positional shapes; then the
only-encoding branch discards the expression; otherwise `intoFfiRepr` is called. -/
def convert_swift_expression_to_ffi_type (s : SharedStruct) (expression : String)
    (type_pos : TypePosition) : Except GenError String :=
  if s.is_tuple then
    match s.fields with
    | .Named _ => .error .todoUnsupported
    | .Unnamed fs =>
        let convertedFields := String.intercalate ", " (fs.enum.map
          (fun p => "_" ++ toString p.1 ++ ": "
            ++ p.2.ty.convert_swift_expression_to_ffi_type
                (expression ++ "." ++ toString p.1) type_pos))
        match s.combine_field_types_string with
        | .error e => .error e
        | .ok combined =>
            .ok (swiftBridgePfx ++ "$" ++ s.name ++ "$" ++ combined ++ "("
              ++ convertedFields ++ ")")
    | .Unit => .error .todoUnsupported
  else
    match s.only_encoding with
    | .error e => .error e
    | .ok onlyEnc =>
        if onlyEnc.isSome then
          .ok ("\x7b let _ = " ++ expression ++ "; \x7d()")
        else
          .ok (expression ++ ".intoFfiRepr()")

/-- `SharedStruct::generate_custom_c_ffi_type` (lines 508-524): the C typedef
for a tuple, one member per field with generated names `_0, _1, ...`. -/
def generate_custom_c_ffi_type (s : SharedStruct) : Except GenError (Option String) :=
  if s.is_tuple then
    match s.combine_field_types_string with
    | .error e => .error e
    | .ok combined =>
        match s.fields with
        | .Unnamed fs =>
            let fieldsStr := String.intercalate "; "
              (fs.enum.map (fun p => p.2.ty.to_c ++ " _" ++ toString p.1)) ++ ";"
            .ok (some ("typedef struct " ++ swiftBridgePfx ++ "$tuple$" ++ combined ++ " \x7b "
              ++ fieldsStr ++ " \x7d " ++ swiftBridgePfx ++ "$tuple$" ++ combined ++ ";"))
        | _ => .error GenError.todoUnsupported
  else .ok none

/-- `SharedStruct::contains_owned_string_recursive` (lines 525-536): recurses
through field types only for tuples; every other struct answers `false`. -/
def contains_owned_string_recursive (s : SharedStruct) : Except GenError Bool :=
  if s.is_tuple then
    match s.fields with
    | .Named _ => .error .todoUnsupported
    | .Unnamed fs => .ok (fs.any (fun f => f.ty.contains_owned_string_recursive))
    | .Unit => .error .todoUnsupported
  else .ok false

/-- `impl PartialEq for SharedStruct` (lines 539-548): compares name, repr,
fields, client-name override and `already_declared` — and nothing else. -/
def beq (a b : SharedStruct) : Bool :=
  a.name == b.name && a.swift_repr == b.swift_repr && a.fields == b.fields
    && a.swift_name == b.swift_name && a.already_declared == b.already_declared

end SharedStruct

/-- An enum variant: a name and a field shape (`EnumVariant` from
`bridged_type/shared_enum.rs`, whose file is not part of the provided sources;
modelled from the spec: "each variant has a name and a field shape with the
same three cases"). -/
structure EnumVariant where
  name : String
  fields : StructFields
  deriving DecidableEq

/-- `SharedEnum`: an enum declaration (modelled from the spec: name, ordered
list of variants, `already_declared` marker). -/
structure SharedEnum where
  name : String
  variants : List EnumVariant
  already_declared : Bool
  deriving DecidableEq

/-- Modelled from the spec: `SharedEnum::has_one_or_more_variants_with_data`
("any variant carries payload data"). -/
def SharedEnum.has_one_or_more_variants_with_data (e : SharedEnum) : Bool :=
  e.variants.any (fun v => !v.fields.is_empty)

/-- One generated conversion match arm: the variant it belongs to, its match
pattern and its produced value. -/
structure ConvArm where
  variantName : String
  matchPattern : String
  body : String
  deriving DecidableEq

namespace EnumVariant

/-- The binder names `x0, x1, ...` used for a variant's positional payload. -/
def payloadBinders (n : Nat) : List String :=
  (List.range n).map (fun i => "x" ++ toString i)

/-- Modelled from the spec: `EnumVariant::convert_rust_expression_to_ffi_repr`
(from the missing `bridged_type/shared_enum.rs`) — the native-to-ABI arm of one
variant: bind each payload field, convert it through its own type, and a unit
variant produces the placeholder byte `123`. -/
def convert_rust_variant_to_ffi (enumName ffiName : String) (v : EnumVariant) :
    Except GenError ConvArm :=
  match v.fields with
  | .Named _ => .error .todoUnsupported
  | .Unnamed fs =>
      let binders := payloadBinders fs.length
      .ok { variantName := v.name
            matchPattern := enumName ++ "::" ++ v.name ++ "("
              ++ String.intercalate ", " binders ++ ")"
            body := ffiName ++ "::" ++ v.name ++ "("
              ++ String.intercalate ", " (List.zipWith
                  (fun f b => f.ty.convert_rust_expression_to_ffi_type b) fs binders) ++ ")" }
  | .Unit =>
      .ok { variantName := v.name
            matchPattern := enumName ++ "::" ++ v.name
            body := ffiName ++ "::" ++ v.name ++ "(123)" }

/-- Modelled from the spec: `EnumVariant::convert_ffi_repr_to_rust` (from the
missing `bridged_type/shared_enum.rs`) — the ABI-to-native arm of one variant;
a unit variant matches and discards the placeholder byte. -/
def convert_ffi_variant_to_rust (enumName ffiName : String) (v : EnumVariant) :
    Except GenError ConvArm :=
  match v.fields with
  | .Named _ => .error .todoUnsupported
  | .Unnamed fs =>
      let binders := payloadBinders fs.length
      .ok { variantName := v.name
            matchPattern := ffiName ++ "::" ++ v.name ++ "("
              ++ String.intercalate ", " binders ++ ")"
            body := enumName ++ "::" ++ v.name ++ "("
              ++ String.intercalate ", " (List.zipWith
                  (fun f b => f.ty.convert_ffi_expression_to_rust_type b) fs binders) ++ ")" }
  | .Unit =>
      .ok { variantName := v.name
            matchPattern := ffiName ++ "::" ++ v.name ++ "(_)"
            body := enumName ++ "::" ++ v.name }

/-- The native definition token of one variant (the first loop of
`generate_shared_enum_tokens`, lines 32-54): declared type tokens, `todo!()`
on named-field variants. -/
def native_token (v : EnumVariant) : Except GenError String :=
  match v.fields with
  | .Named _ => .error .todoUnsupported
  | .Unnamed fs =>
      .ok (v.name ++ "(" ++ String.intercalate ", " (fs.map (fun f => f.ty.pathString)) ++ ")")
  | .Unit => .ok v.name

/-- The ABI definition token of one variant (the second loop of
`generate_shared_enum_tokens`, lines 56-82): each payload field projected
through its ABI type token; a unit variant gets exactly one `u8` field. -/
def ffi_token (v : EnumVariant) : Except GenError String :=
  match v.fields with
  | .Named _ => .error .todoUnsupported
  | .Unnamed fs =>
      .ok (v.name ++ "(" ++ String.intercalate ", "
        (fs.map (fun f => f.ty.to_ffi_compatible_rust_type)) ++ ")")
  | .Unit => .ok (v.name ++ "(u8)")

end EnumVariant

/-- Sequential fallible map, the shape of the source's `for` loops that push
into a vector and abort generation on the first `todo!()`. -/
def exceptMapList (f : α → Except ε β) : List α → Except ε (List β)
  | [] => .ok []
  | x :: xs =>
      match f x with
      | .error e => .error e
      | .ok y =>
          match exceptMapList f xs with
          | .error e => .error e
          | .ok ys => .ok (y :: ys)

/-- The pieces of the token stream produced by
`SwiftBridgeModule::generate_shared_enum_tokens` (lines 122-194) that the
claims are about: the native and ABI variant token lists, the two conversion
arm lists, the automatic derives, and whether the Vec support functions are
generated. -/
structure EnumTokens where
  variantTokens : List String
  ffiVariantTokens : List String
  armsToFfi : List ConvArm
  armsToRust : List ConvArm
  automaticDerives : List String
  vecSupport : Bool
  deriving DecidableEq

/-- `SwiftBridgeModule::generate_shared_enum_tokens` (lines 13-197): `none` for
an already-declared enum; otherwise the variant loops (aborting on a
named-field variant), the two conversion-arm loops, the automatic
`Copy, Clone` derives and the Vec support hook, both granted exactly when no
variant carries data. -/
def generate_shared_enum_tokens (e : SharedEnum) : Except GenError (Option EnumTokens) :=
  if e.already_declared then .ok none
  else
    let enumFfiName := swiftBridgePfx ++ e.name
    match exceptMapList EnumVariant.native_token e.variants with
    | .error er => .error er
    | .ok enumVariants =>
    match exceptMapList EnumVariant.ffi_token e.variants with
    | .error er => .error er
    | .ok enumFfiVariants =>
    match exceptMapList
        (EnumVariant.convert_rust_variant_to_ffi e.name enumFfiName) e.variants with
    | .error er => .error er
    | .ok armsToFfi =>
    match exceptMapList
        (EnumVariant.convert_ffi_variant_to_rust e.name enumFfiName) e.variants with
    | .error er => .error er
    | .ok armsToRust =>
        let automaticDerives :=
          if e.has_one_or_more_variants_with_data then [] else ["Copy", "Clone"]
        let vecSupport := !e.has_one_or_more_variants_with_data
        .ok (some { variantTokens := enumVariants
                    ffiVariantTokens := enumFfiVariants
                    armsToFfi := armsToFfi
                    armsToRust := armsToRust
                    automaticDerives := automaticDerives
                    vecSupport := vecSupport })

/-!
Denotational layer: the run-time meaning of the generated conversion code.
Field values (native or ABI) live in one universe `V`; each field type
contributes its two conversion directions as functions on `V` (the classifier
contract of spec §4.1).
-/

/-- A field type's pair of run-time conversions across the boundary. -/
structure FieldConv (V : Type) where
  toFfi : V → V
  toRust : V → V

/-- The run-time value of a generated ABI struct: the placeholder-only marker
of a zero-field struct, or the ordered converted field values. -/
inductive StructFfiVal (V : Type)
  | placeholder (byte : Nat)
  | fieldVals (vals : List V)
  deriving DecidableEq

/-- Denotation of the body emitted by `generate_into_ffi_repr_method`
(lines 183-191): a zero-field struct becomes the literal with the single
filler field `_private: 123`; otherwise every field is projected, in order,
through its own type's native-to-ABI conversion. -/
def structNativeToFfi (convs : List (FieldConv V)) (vals : List V) : StructFfiVal V :=
  if convs.isEmpty then .placeholder 123
  else .fieldVals (List.zipWith (fun c v => c.toFfi v) convs vals)

/-- Denotation of the code emitted by `convert_ffi_repr_to_rust`
(lines 107-148): a zero-field struct is rebuilt from nothing (the placeholder
is discarded); otherwise every field is projected back through its own type's
ABI-to-native conversion. -/
def structFfiToNative (convs : List (FieldConv V)) : StructFfiVal V → List V
  | .placeholder _ => []
  | .fieldVals vals => List.zipWith (fun c v => c.toRust v) convs vals

/-- One variant's run-time conversion data: its payload field conversions
(empty for a unit variant). -/
structure VariantConv (V : Type) where
  name : String
  fieldConvs : List (FieldConv V)

/-- The run-time value of a generated ABI enum: the tag plus either the
placeholder byte of a unit variant or the converted payload values. -/
inductive EnumFfiVal (V : Type)
  | unitTag (tag : Nat) (byte : Nat)
  | payload (tag : Nat) (vals : List V)
  deriving DecidableEq

/-- The run-time value of the native enum: a variant tag plus its payload. -/
structure EnumNativeVal (V : Type) where
  tag : Nat
  vals : List V
  deriving DecidableEq

/-- Denotation of the generated `into_ffi_repr` match (lines 138-146, one arm
per variant): the matching arm converts the payload through the variant's
field conversions; a unit variant produces the placeholder byte `123`. -/
def enumNativeToFfi (variants : List (VariantConv V)) (ev : EnumNativeVal V) :
    Option (EnumFfiVal V) :=
  match variants[ev.tag]? with
  | none => none
  | some w =>
      if w.fieldConvs.isEmpty then some (.unitTag ev.tag 123)
      else some (.payload ev.tag
        (List.zipWith (fun c v => c.toFfi v) w.fieldConvs ev.vals))

/-- Denotation of the generated `into_rust_repr` match (lines 148-156, one arm
per variant): the matching arm converts the payload back; a unit variant
discards the placeholder byte. -/
def enumFfiToNative (variants : List (VariantConv V)) : EnumFfiVal V → Option (EnumNativeVal V)
  | .unitTag tag _ =>
      match variants[tag]? with
      | some w => if w.fieldConvs.isEmpty then some ⟨tag, []⟩ else none
      | none => none
  | .payload tag vals =>
      match variants[tag]? with
      | some w =>
          if w.fieldConvs.isEmpty then none
          else some ⟨tag, List.zipWith (fun c v => c.toRust v) w.fieldConvs vals⟩
      | none => none

/-- Reading uninitialized memory is undefined behaviour. -/
inductive UB
  | uninitRead
  deriving DecidableEq

/-- The run-time state of the generated optional-enum wrapper (lines 158-163):
a presence flag and a `MaybeUninit` payload slot, modelled as `Option`
(`none` = uninitialized). -/
structure OptionEnumFfi (V : Type) where
  is_some : Bool
  val : Option V
  deriving DecidableEq

/-- `MaybeUninit::assume_init`: defined only on an initialized slot; reading an
uninitialized slot is undefined behaviour. -/
def maybeUninitAssumeInit : Option V → Except UB V
  | some x => .ok x
  | none => .error .uninitRead

/-- Denotation of the generated option wrapper's `into_rust_repr`
(lines 166-174): the slot is `assume_init`-read only under the `is_some`
branch; otherwise `None` is returned without touching the slot. -/
def optionEnumIntoRustRepr (into_rust : V → R) (o : OptionEnumFfi V) : Except UB (Option R) :=
  if o.is_some then
    match maybeUninitAssumeInit o.val with
    | .error e => .error e
    | .ok x => .ok (some (into_rust x))
  else .ok none

/-- Denotation of the generated option wrapper's `from_rust_repr`
(lines 176-190): a present value sets the flag and initializes the slot; an
absent value clears the flag and leaves the slot uninitialized. -/
def optionEnumFromRustRepr (into_ffi : R → V) : Option R → OptionEnumFfi V
  | some v => { is_some := true, val := some (into_ffi v) }
  | none => { is_some := false, val := none }

/-!
Concrete declarations used to instantiate the claims (spec §8 scenarios and
the integration-test declarations in
`src/crates/swift-integration-tests/src/shared_types/shared_enum.rs`).
-/

/-- Scenario E: the zero-field struct `Empty`, newly declared. -/
def emptyStruct : SharedStruct :=
  { name := "Empty", swift_repr := .Structure, fields := .Named []
    swift_name := none, already_declared := false, is_tuple := false }

/-- A three-field tuple `(i32, i32, i32)` as synthesized by `tuple_from`. -/
def tripleTuple : SharedStruct :=
  SharedStruct.tuple_from_struct [.i32, .i32, .i32]

/-- The tuple synthesized for the type sequence `(ab, c)` of two declared
shared types named `ab` and `c`. -/
def tupleABthenC : SharedStruct :=
  SharedStruct.tuple_from_struct [.named "ab", .named "c"]

/-- The tuple synthesized for the type sequence `(a, bc)` of two declared
shared types named `a` and `bc`. -/
def tupleAthenBC : SharedStruct :=
  SharedStruct.tuple_from_struct [.named "a", .named "bc"]

/-- A hypothetical tuple declaration carrying the unsupported unit field shape. -/
def unitFieldTuple : SharedStruct :=
  { name := "tuple", swift_repr := .Structure, fields := .Unit
    swift_name := none, already_declared := false, is_tuple := true }

/-- A hypothetical tuple declaration carrying the unsupported named field shape. -/
def namedFieldTuple : SharedStruct :=
  { name := "tuple", swift_repr := .Structure, fields := .Named [{ name := "a", ty := .i32 }]
    swift_name := none, already_declared := false, is_tuple := true }

/-- A single-field unnamed struct declaration with `is_tuple` not set. -/
def plainUnnamedStruct : SharedStruct :=
  { name := "tuple", swift_repr := .Structure, fields := .Unnamed [{ ty := .i32, idx := 0 }]
    swift_name := none, already_declared := false, is_tuple := false }

/-- The same declaration with `is_tuple` set: a synthesized tuple. -/
def tupleUnnamedStruct : SharedStruct :=
  { plainUnnamedStruct with is_tuple := true }

/-- Scenario C: the data-free enum `Color { Red, Green, Blue }`. -/
def colorEnum : SharedEnum :=
  { name := "Color"
    variants := [ { name := "Red", fields := .Unit }
                , { name := "Green", fields := .Unit }
                , { name := "Blue", fields := .Unit } ]
    already_declared := false }

/-- The token pieces generated for `colorEnum`. -/
def colorTokens : EnumTokens :=
  { variantTokens := ["Red", "Green", "Blue"]
    ffiVariantTokens := ["Red(u8)", "Green(u8)", "Blue(u8)"]
    armsToFfi :=
      [ { variantName := "Red", matchPattern := "Color::Red"
        , body := "__swift_bridge__Color::Red(123)" }
      , { variantName := "Green", matchPattern := "Color::Green"
        , body := "__swift_bridge__Color::Green(123)" }
      , { variantName := "Blue", matchPattern := "Color::Blue"
        , body := "__swift_bridge__Color::Blue(123)" } ]
    armsToRust :=
      [ { variantName := "Red", matchPattern := "__swift_bridge__Color::Red(_)"
        , body := "Color::Red" }
      , { variantName := "Green", matchPattern := "__swift_bridge__Color::Green(_)"
        , body := "Color::Green" }
      , { variantName := "Blue", matchPattern := "__swift_bridge__Color::Blue(_)"
        , body := "Color::Blue" } ]
    automaticDerives := ["Copy", "Clone"]
    vecSupport := true }

/-- Scenario D: the data-bearing enum `Shape { Circle(f64), Label(String) }`. -/
def shapeEnum : SharedEnum :=
  { name := "Shape"
    variants := [ { name := "Circle", fields := .Unnamed [{ ty := .f64, idx := 0 }] }
                , { name := "Label", fields := .Unnamed [{ ty := .text, idx := 0 }] } ]
    already_declared := false }

/-- The integration-test enum `EnumWithNamedData`, whose first variant uses the
unsupported named field shape. -/
def enumWithNamedData : SharedEnum :=
  { name := "EnumWithNamedData"
    variants := [ { name := "TwoFields"
                  , fields := .Named [ { name := "hello", ty := .text }
                                     , { name := "data_u8", ty := .u8 } ] }
                , { name := "OneField", fields := .Named [{ name := "data_i32", ty := .i32 }] }
                , { name := "NoFields", fields := .Unit } ]
    already_declared := false }

/-- A demonstration field conversion pair on `Nat` whose two directions invert
each other. -/
def demoConv : FieldConv Nat :=
  { toFfi := Nat.succ, toRust := Nat.pred }

/-- A one-field conversion list for a demonstration struct. -/
def demoConvs : List (FieldConv Nat) := [demoConv]

/-- Demonstration variant conversions: one unit variant, one one-field variant. -/
def demoVariants : List (VariantConv Nat) :=
  [ { name := "Red", fieldConvs := [] }
  , { name := "Circle", fieldConvs := [demoConv] } ]

/-!
Helper lemmas.
-/

theorem zipWith_toRust_toFfi {V : Type} (convs : List (FieldConv V)) (vals : List V)
    (hconv : ∀ c ∈ convs, ∀ v, c.toRust (c.toFfi v) = v)
    (hlen : vals.length = convs.length) :
    List.zipWith (fun c v => c.toRust v) convs
      (List.zipWith (fun c v => c.toFfi v) convs vals) = vals := by
  induction convs generalizing vals with
  | nil =>
      cases vals with
      | nil => rfl
      | cons v vs => simp at hlen
  | cons c cs ih =>
      cases vals with
      | nil => simp at hlen
      | cons v vs =>
          simp only [List.zipWith_cons_cons]
          rw [hconv c (List.mem_cons_self c cs) v,
            ih vs (fun d hd w => hconv d (List.mem_cons_of_mem c hd) w)
              (by simpa using hlen)]

theorem exceptMapList_ok_length {α β ε : Type} {f : α → Except ε β} {xs : List α}
    {ys : List β} (h : exceptMapList f xs = .ok ys) : ys.length = xs.length := by
  induction xs generalizing ys with
  | nil =>
      simp only [exceptMapList, Except.ok.injEq] at h
      subst h
      rfl
  | cons x xs ih =>
      cases hfx : f x with
      | error e => simp [exceptMapList, hfx] at h
      | ok y =>
          cases hrec : exceptMapList f xs with
          | error e => simp [exceptMapList, hfx, hrec] at h
          | ok ys2 =>
              simp only [exceptMapList, hfx, hrec, Except.ok.injEq] at h
              subst h
              simp [ih hrec]

theorem exceptMapList_ok_get {α β ε : Type} {f : α → Except ε β} {xs : List α}
    {ys : List β} (h : exceptMapList f xs = .ok ys) (i : Nat)
    (hx : i < xs.length) (hy : i < ys.length) :
    f (xs.get ⟨i, hx⟩) = .ok (ys.get ⟨i, hy⟩) := by
  induction xs generalizing ys i with
  | nil => exact absurd hx (Nat.not_lt_zero i)
  | cons x xs ih =>
      cases hfx : f x with
      | error e => simp [exceptMapList, hfx] at h
      | ok y =>
          cases hrec : exceptMapList f xs with
          | error e => simp [exceptMapList, hfx, hrec] at h
          | ok ys2 =>
              simp only [exceptMapList, hfx, hrec, Except.ok.injEq] at h
              subst h
              cases i with
              | zero => simpa using hfx
              | succ n =>
                  exact ih hrec n (Nat.lt_of_succ_lt_succ hx) (Nat.lt_of_succ_lt_succ hy)

theorem exceptMapList_ok_map {α β γ ε : Type} {f : α → Except ε β} {g : β → γ} {p : α → γ}
    {xs : List α} {ys : List β} (h : exceptMapList f xs = .ok ys)
    (hpt : ∀ x y, f x = .ok y → g y = p x) : ys.map g = xs.map p := by
  induction xs generalizing ys with
  | nil =>
      simp only [exceptMapList, Except.ok.injEq] at h
      subst h
      rfl
  | cons x xs ih =>
      cases hfx : f x with
      | error e => simp [exceptMapList, hfx] at h
      | ok y =>
          cases hrec : exceptMapList f xs with
          | error e => simp [exceptMapList, hfx, hrec] at h
          | ok ys2 =>
              simp only [exceptMapList, hfx, hrec, Except.ok.injEq] at h
              subst h
              simp [hpt x y hfx, ih hrec]

theorem exceptMapList_todo_of_mem {α β : Type} {f : α → Except GenError β} {xs : List α}
    {x : α} (hx : x ∈ xs) (he : f x = .error .todoUnsupported) :
    exceptMapList f xs = .error .todoUnsupported := by
  induction xs with
  | nil => cases hx
  | cons y ys ih =>
      rcases List.mem_cons.mp hx with h | h
      · subst h
        simp [exceptMapList, he]
      · cases hfy : f y with
        | error e =>
            cases e
            simp [exceptMapList, hfy]
        | ok v => simp [exceptMapList, hfy, ih h]

theorem foldl_enumFrom_snd {α β : Type} (h : β → α → β) (l : List α) :
    ∀ (n : Nat) (a : β),
      (List.enumFrom n l).foldl (fun s p => h s p.2) a = l.foldl h a := by
  induction l with
  | nil => intro n a; rfl
  | cons x xs ih =>
      intro n a
      simp only [List.enumFrom, List.foldl]
      exact ih (n + 1) (h a x)

theorem structRoundtripAux {V : Type} (convs : List (FieldConv V)) (vals : List V)
    (hconv : ∀ c ∈ convs, ∀ v, c.toRust (c.toFfi v) = v)
    (hlen : vals.length = convs.length) :
    structFfiToNative convs (structNativeToFfi convs vals) = vals := by
  cases convs with
  | nil =>
      cases vals with
      | nil => rfl
      | cons v vs => simp at hlen
  | cons c cs =>
      have h : structNativeToFfi (c :: cs) vals
          = .fieldVals (List.zipWith (fun cc v => cc.toFfi v) (c :: cs) vals) := by
        simp [structNativeToFfi]
      rw [h]
      exact zipWith_toRust_toFfi _ _ hconv hlen

theorem enumRoundtripAux {V : Type} (variants : List (VariantConv V)) (ev : EnumNativeVal V)
    (w : VariantConv V) (hw : variants[ev.tag]? = some w)
    (hvconv : ∀ c ∈ w.fieldConvs, ∀ v, c.toRust (c.toFfi v) = v)
    (hvlen : ev.vals.length = w.fieldConvs.length) :
    (enumNativeToFfi variants ev).bind (enumFfiToNative variants) = some ev := by
  obtain ⟨tag, vals⟩ := ev
  simp only at hw hvlen
  cases hfc : w.fieldConvs with
  | nil =>
      have hvals : vals = [] := by
        rw [hfc] at hvlen
        exact List.eq_nil_of_length_eq_zero hvlen
      subst hvals
      simp [enumNativeToFfi, enumFfiToNative, hw, hfc]
  | cons c cs =>
      have hz := zipWith_toRust_toFfi w.fieldConvs vals hvconv hvlen
      simp only [enumNativeToFfi, hw, hfc, List.isEmpty_cons, Bool.false_eq_true, if_false,
        Option.bind_some, enumFfiToNative]
      rw [hfc] at hz
      simp [hw, hfc, hz]

/-!
Claim theorems.
-/

/-- C1: for every struct field list (named, unnamed or unit shapes all reduce
to their ordered field conversions) and every enum variant table, converting a
native value to its ABI representation (the code emitted by
`generate_into_ffi_repr_method` / the enum `into_ffi_repr` match) and back (the
code emitted by `convert_ffi_repr_to_rust` / the enum `into_rust_repr` match)
reproduces the original value exactly, assuming each field type's own
conversions round-trip. -/
theorem struct_enum_ffi_roundtrip {V : Type}
    (convs : List (FieldConv V)) (vals : List V)
    (hconv : ∀ c ∈ convs, ∀ v, c.toRust (c.toFfi v) = v)
    (hlen : vals.length = convs.length)
    (variants : List (VariantConv V)) (ev : EnumNativeVal V)
    (w : VariantConv V) (hw : variants[ev.tag]? = some w)
    (hvconv : ∀ c ∈ w.fieldConvs, ∀ v, c.toRust (c.toFfi v) = v)
    (hvlen : ev.vals.length = w.fieldConvs.length) :
    structFfiToNative convs (structNativeToFfi convs vals) = vals ∧
    (enumNativeToFfi variants ev).bind (enumFfiToNative variants) = some ev :=
  ⟨structRoundtripAux convs vals hconv hlen,
   enumRoundtripAux variants ev w hw hvconv hvlen⟩

/-- C1 witness: a one-field struct value and a payload-carrying enum value
round-trip concretely. -/
theorem struct_enum_ffi_roundtrip_witness :
    structFfiToNative demoConvs (structNativeToFfi demoConvs [41]) = [41] ∧
    (enumNativeToFfi demoVariants ⟨1, [7]⟩).bind (enumFfiToNative demoVariants)
      = some ⟨1, [7]⟩ :=
  struct_enum_ffi_roundtrip demoConvs [41]
    (by
      intro c hc v
      rcases List.mem_singleton.mp hc with rfl
      rfl)
    rfl
    demoVariants ⟨1, [7]⟩ { name := "Circle", fieldConvs := [demoConv] }
    rfl
    (by
      intro c hc v
      rcases List.mem_singleton.mp hc with rfl
      rfl)
    rfl

/-- C2 (amended): the tuple FFI symbol is exactly the global prefix, the
synthesized name `tuple` and the separator-free concatenation of the fields'
Rust type-path strings, so identical ordered field-type sequences always
receive the identical symbol; but the concatenation is not injective, so
distinct sequences are not guaranteed distinct symbols. -/
theorem tuple_ffi_symbol_eq_path_concat (tys : List RustTy) :
    (SharedStruct.tuple_from_struct tys).ffi_name_string
      = .ok (swiftBridgePfx ++ "$" ++ "tuple" ++ "$"
          ++ String.join (tys.map RustTy.pathString)) := by
  have hcomb : (SharedStruct.tuple_from_struct tys).combine_field_types_string
      = .ok (String.join (tys.map RustTy.pathString)) := by
    simp only [SharedStruct.combine_field_types_string, SharedStruct.tuple_from_struct]
    congr 1
    rw [List.foldl_map, String.join, List.foldl_map]
    exact foldl_enumFrom_snd (fun s t => s ++ t.pathString) tys 0 ""
  have ht : (SharedStruct.tuple_from_struct tys).is_tuple = true := rfl
  simp only [SharedStruct.ffi_name_string, ht, if_true]
  rw [hcomb]
  rfl

/-- C2 counterexample: the tuples for the distinct ordered field-type
sequences `(ab, c)` and `(a, bc)` (two pairs of declared shared types) receive
the identical mangled FFI symbol, refuting injectivity. -/
theorem tuple_ffi_symbol_collision :
    tupleABthenC.fields ≠ tupleAthenBC.fields ∧
    tupleABthenC.ffi_name_string = .ok "__swift_bridge__$tuple$abc" ∧
    tupleAthenBC.ffi_name_string = .ok "__swift_bridge__$tuple$abc" := by
  refine ⟨by decide, rfl, rfl⟩

/-- C3: at the three-field tuple `(i32, i32, i32)` the generated ABI struct has
three fields, but the generated native-to-ABI conversion applies the
constructor to the two hardcoded raw projections `val.0, val.1` — the third
field is dropped and no field goes through its own type's conversion, so the
emitted code cannot even compile against the emitted ABI struct. -/
theorem tuple_to_ffi_conversion_at_triple :
    tripleTuple.fields.normalized_fields.length = 3 ∧
    tripleTuple.convert_rust_expression_to_ffi_type "EXPR"
      = .ok "let val = EXPR; __swift_bridge__tuple_i32i32i32(val.0, val.1)" ∧
    tripleTuple.generate_custom_rust_ffi_type
      = .ok (some "#[repr(C)] pub struct __swift_bridge__tuple_i32i32i32(i32, i32, i32);") :=
  ⟨rfl, rfl, rfl⟩

/-- C4 (amended): for every only-encoding struct, the Rust native-to-ABI
conversion and the Swift client-expression-to-ABI conversion evaluate the
source expression exactly once, for effect only, and discard its value; but
the third conversion, `convert_swift_to_ffi_repr`, invokes the ABI marker
constructor directly and never evaluates the source expression at all — its
output is independent of the expression. -/
theorem only_encoding_conversion_discards (s : SharedStruct)
    (expression expression2 : String) (type_pos : TypePosition) (enc : OnlyEncoding)
    (henc : s.only_encoding = .ok (some enc)) (ht : s.is_tuple = false) :
    s.convert_rust_expression_to_ffi_type expression
      = .ok ("\x7b " ++ expression ++ "; \x7d") ∧
    s.convert_swift_expression_to_ffi_type expression type_pos
      = .ok ("\x7b let _ = " ++ expression ++ "; \x7d()") ∧
    s.convert_swift_to_ffi_repr expression
      = Except.map (fun n => n ++ "(_private: 123)") s.ffi_name_string ∧
    s.convert_swift_to_ffi_repr expression = s.convert_swift_to_ffi_repr expression2 := by
  have hempty : s.fields.is_empty = true := by
    cases hie : s.fields.is_empty with
    | true => rfl
    | false => simp [SharedStruct.only_encoding, hie] at henc
  have key : ∀ ex : String, s.convert_swift_to_ffi_repr ex
      = Except.map (fun n => n ++ "(_private: 123)") s.ffi_name_string := by
    intro ex
    cases hf : s.ffi_name_string with
    | error e => simp [SharedStruct.convert_swift_to_ffi_repr, hf, Except.map]
    | ok n => simp [SharedStruct.convert_swift_to_ffi_repr, hf, hempty, Except.map]
  refine ⟨?_, ?_, key expression, (key expression).trans (key expression2).symm⟩
  · simp [SharedStruct.convert_rust_expression_to_ffi_type, henc]
  · simp [SharedStruct.convert_swift_expression_to_ffi_type, ht, henc]

/-- C4 witness: the conclusions at the zero-field struct `Empty` and the
expressions `EXPR`, `EXPR2`. -/
theorem only_encoding_conversion_discards_witness :
    emptyStruct.convert_rust_expression_to_ffi_type "EXPR"
      = .ok ("\x7b " ++ "EXPR" ++ "; \x7d") ∧
    emptyStruct.convert_swift_expression_to_ffi_type "EXPR" .SharedStructField
      = .ok ("\x7b let _ = " ++ "EXPR" ++ "; \x7d()") ∧
    emptyStruct.convert_swift_to_ffi_repr "EXPR"
      = Except.map (fun n => n ++ "(_private: 123)") emptyStruct.ffi_name_string ∧
    emptyStruct.convert_swift_to_ffi_repr "EXPR"
      = emptyStruct.convert_swift_to_ffi_repr "EXPR2" :=
  only_encoding_conversion_discards emptyStruct "EXPR" "EXPR2" .SharedStructField
    { swift := "Empty()", rust := "Empty \x7b\x7d" } rfl rfl

/-- C4 counterexample: `convert_swift_to_ffi_repr` on the only-encoding struct
`Empty` produces an output that does not mention the source expression and is
identical for two different expressions — the expression is evaluated zero
times, not exactly once. -/
theorem convert_swift_to_ffi_repr_drops_expression :
    emptyStruct.convert_swift_to_ffi_repr "sideEffect()"
      = .ok "__swift_bridge__$Empty(_private: 123)" ∧
    emptyStruct.convert_swift_to_ffi_repr "sideEffect()"
      = emptyStruct.convert_swift_to_ffi_repr "otherSideEffect()" :=
  ⟨rfl, rfl⟩

theorem generate_shared_enum_tokens_ok {e : SharedEnum} {toks : EnumTokens}
    (h : generate_shared_enum_tokens e = .ok (some toks)) :
    e.already_declared = false ∧
    exceptMapList EnumVariant.native_token e.variants = .ok toks.variantTokens ∧
    exceptMapList EnumVariant.ffi_token e.variants = .ok toks.ffiVariantTokens ∧
    exceptMapList (EnumVariant.convert_rust_variant_to_ffi e.name (swiftBridgePfx ++ e.name))
      e.variants = .ok toks.armsToFfi ∧
    exceptMapList (EnumVariant.convert_ffi_variant_to_rust e.name (swiftBridgePfx ++ e.name))
      e.variants = .ok toks.armsToRust ∧
    toks.automaticDerives
      = (if e.has_one_or_more_variants_with_data then [] else ["Copy", "Clone"]) ∧
    toks.vecSupport = !e.has_one_or_more_variants_with_data := by
  by_cases had : e.already_declared = true
  · simp [generate_shared_enum_tokens, had] at h
  · have had2 : e.already_declared = false := by
      cases hb : e.already_declared
      · rfl
      · exact absurd hb had
    cases h1 : exceptMapList EnumVariant.native_token e.variants with
    | error er => simp [generate_shared_enum_tokens, had2, h1] at h
    | ok l1 =>
      cases h2 : exceptMapList EnumVariant.ffi_token e.variants with
      | error er => simp [generate_shared_enum_tokens, had2, h1, h2] at h
      | ok l2 =>
        cases h3 : exceptMapList
            (EnumVariant.convert_rust_variant_to_ffi e.name (swiftBridgePfx ++ e.name))
            e.variants with
        | error er => simp [generate_shared_enum_tokens, had2, h1, h2, h3] at h
        | ok l3 =>
          cases h4 : exceptMapList
              (EnumVariant.convert_ffi_variant_to_rust e.name (swiftBridgePfx ++ e.name))
              e.variants with
          | error er => simp [generate_shared_enum_tokens, had2, h1, h2, h3, h4] at h
          | ok l4 =>
            simp only [generate_shared_enum_tokens, had2, Bool.false_eq_true, if_false,
              h1, h2, h3, h4, Except.ok.injEq, Option.some.injEq] at h
            subst h
            exact ⟨had2, rfl, rfl, rfl, rfl, rfl, rfl⟩

/-- C5: for every enum the engine accepts, the generated `into_ffi_repr` and
`into_rust_repr` bodies contain exactly one conversion arm per declared
variant, in declaration order: arm counts equal the variant count and the
arms' variant names are exactly the declared names in order. -/
theorem enum_conversion_arms_exhaustive (e : SharedEnum) (toks : EnumTokens)
    (h : generate_shared_enum_tokens e = .ok (some toks)) :
    toks.armsToFfi.length = e.variants.length ∧
    toks.armsToRust.length = e.variants.length ∧
    toks.armsToFfi.map ConvArm.variantName = e.variants.map EnumVariant.name ∧
    toks.armsToRust.map ConvArm.variantName = e.variants.map EnumVariant.name := by
  obtain ⟨-, -, -, h3, h4, -, -⟩ := generate_shared_enum_tokens_ok h
  refine ⟨exceptMapList_ok_length h3, exceptMapList_ok_length h4, ?_, ?_⟩
  · refine exceptMapList_ok_map h3 ?_
    intro v a hva
    cases hvf : v.fields with
    | Named fs => simp [EnumVariant.convert_rust_variant_to_ffi, hvf] at hva
    | Unnamed fs =>
        simp only [EnumVariant.convert_rust_variant_to_ffi, hvf, Except.ok.injEq] at hva
        rw [← hva]
    | Unit =>
        simp only [EnumVariant.convert_rust_variant_to_ffi, hvf, Except.ok.injEq] at hva
        rw [← hva]
  · refine exceptMapList_ok_map h4 ?_
    intro v a hva
    cases hvf : v.fields with
    | Named fs => simp [EnumVariant.convert_ffi_variant_to_rust, hvf] at hva
    | Unnamed fs =>
        simp only [EnumVariant.convert_ffi_variant_to_rust, hvf, Except.ok.injEq] at hva
        rw [← hva]
    | Unit =>
        simp only [EnumVariant.convert_ffi_variant_to_rust, hvf, Except.ok.injEq] at hva
        rw [← hva]

/-- C5 witness: the three-variant `Color` enum generates exactly three arms in
each direction, named `Red, Green, Blue` in order. -/
theorem enum_conversion_arms_exhaustive_witness :
    colorTokens.armsToFfi.length = colorEnum.variants.length ∧
    colorTokens.armsToRust.length = colorEnum.variants.length ∧
    colorTokens.armsToFfi.map ConvArm.variantName
      = colorEnum.variants.map EnumVariant.name ∧
    colorTokens.armsToRust.map ConvArm.variantName
      = colorEnum.variants.map EnumVariant.name :=
  enum_conversion_arms_exhaustive colorEnum colorTokens rfl

/-- C6: for every enum the engine accepts, the native definition derives
`Copy, Clone` if and only if no variant carries payload data, and the Vec
support functions are generated if and only if no variant carries payload
data; any data-bearing variant disables both. -/
theorem enum_derives_and_vec_support (e : SharedEnum) (toks : EnumTokens)
    (h : generate_shared_enum_tokens e = .ok (some toks)) :
    (toks.automaticDerives = ["Copy", "Clone"]
      ↔ e.has_one_or_more_variants_with_data = false) ∧
    (toks.vecSupport = true ↔ e.has_one_or_more_variants_with_data = false) := by
  obtain ⟨-, -, -, -, -, hder, hvec⟩ := generate_shared_enum_tokens_ok h
  cases hdata : e.has_one_or_more_variants_with_data with
  | true =>
      rw [hdata] at hder hvec
      simp at hder hvec
      simp [hder, hvec]
  | false =>
      rw [hdata] at hder hvec
      simp at hder hvec
      simp [hder, hvec]

/-- C6 witness: the data-free `Color` enum gets `Copy, Clone` and Vec support;
the data-bearing `Shape` enum gets neither. -/
theorem enum_derives_and_vec_support_witness :
    colorTokens.automaticDerives = ["Copy", "Clone"] ∧ colorTokens.vecSupport = true := by
  have h := enum_derives_and_vec_support colorEnum colorTokens rfl
  exact ⟨h.1.mpr rfl, h.2.mpr rfl⟩

/-- C7: every otherwise-empty ABI case receives a placeholder — a zero-field
struct's ABI literal is exactly the constructor with the single filler field
`_private: 123`, both in the Rust `into_ffi_repr` body and in the Swift
client-to-ABI conversion, and a unit enum variant's ABI definition token is
exactly its name with one `u8` field. -/
theorem zero_field_placeholders (s : SharedStruct) (expression : String)
    (hempty : s.fields.is_empty = true)
    (e : SharedEnum) (toks : EnumTokens)
    (h : generate_shared_enum_tokens e = .ok (some toks))
    (i : Nat) (h1 : i < e.variants.length)
    (hunit : (e.variants.get ⟨i, h1⟩).fields = .Unit) :
    s.into_ffi_repr_body expression
      = s.ffi_name_tokens ++ " \x7b _private: 123 \x7d" ∧
    s.convert_swift_to_ffi_repr expression
      = Except.map (fun n => n ++ "(_private: 123)") s.ffi_name_string ∧
    toks.ffiVariantTokens.length = e.variants.length ∧
    toks.ffiVariantTokens[i]? = some ((e.variants.get ⟨i, h1⟩).name ++ "(u8)") := by
  obtain ⟨-, -, hv2, -, -, -, -⟩ := generate_shared_enum_tokens_ok h
  have hlen2 := exceptMapList_ok_length hv2
  have hy : i < toks.ffiVariantTokens.length := by rw [hlen2]; exact h1
  refine ⟨?_, ?_, hlen2, ?_⟩
  · simp [SharedStruct.into_ffi_repr_body, hempty]
  · cases hf : s.ffi_name_string with
    | error e2 => simp [SharedStruct.convert_swift_to_ffi_repr, hf, Except.map]
    | ok n => simp [SharedStruct.convert_swift_to_ffi_repr, hf, hempty, Except.map]
  · have hg := exceptMapList_ok_get hv2 i h1 hy
    have htok : EnumVariant.ffi_token (e.variants.get ⟨i, h1⟩)
        = .ok ((e.variants.get ⟨i, h1⟩).name ++ "(u8)") := by
      have hunit2 : (e.variants[i]).fields = StructFields.Unit := hunit
      simp [EnumVariant.ffi_token, hunit2]
    have hval := Except.ok.inj (htok.symm.trans hg)
    rw [List.getElem?_eq_getElem hy]
    exact congrArg some hval.symm

/-- C7 witness: the conclusions at the zero-field struct `Empty` and the unit
variant `Red` of the `Color` enum. -/
theorem zero_field_placeholders_witness :
    emptyStruct.into_ffi_repr_body "EXPR"
      = emptyStruct.ffi_name_tokens ++ " \x7b _private: 123 \x7d" ∧
    emptyStruct.convert_swift_to_ffi_repr "EXPR"
      = Except.map (fun n => n ++ "(_private: 123)") emptyStruct.ffi_name_string ∧
    colorTokens.ffiVariantTokens.length = colorEnum.variants.length ∧
    colorTokens.ffiVariantTokens[0]?
      = some ((colorEnum.variants.get ⟨0, by decide⟩).name ++ "(u8)") :=
  zero_field_placeholders emptyStruct "EXPR" rfl colorEnum colorTokens rfl 0
    (by decide) rfl

/-- C8: in the generated optional-enum wrapper, `into_rust_repr` reads the
payload slot (`assume_init`) only under the branch where `is_some` is true —
when the flag is false it returns `None` for every slot state, initialized or
not — and `from_rust_repr None` sets the flag to false and leaves the slot
uninitialized, requiring no payload value; reading the slot does happen when
the flag is true, so an uninitialized slot is undefined exactly there. -/
theorem option_wrapper_flag_safety {V R : Type} (into_rust : V → R) (into_ffi : R → V)
    (slot : Option V) :
    optionEnumIntoRustRepr into_rust { is_some := false, val := slot } = .ok none ∧
    optionEnumFromRustRepr into_ffi (none : Option R)
      = { is_some := false, val := none } ∧
    optionEnumIntoRustRepr into_rust { is_some := true, val := (none : Option V) }
      = .error .uninitRead := by
  refine ⟨?_, rfl, ?_⟩
  · simp [optionEnumIntoRustRepr]
  · simp [optionEnumIntoRustRepr, maybeUninitAssumeInit]

/-- C9 (amended): for a tuple declared with the unsupported named or unit
field shape, every generation path that inspects the field shape aborts
immediately — symbol mangling and naming, the client type names, the Rust and C
ABI definitions, both expression conversions on the Rust side and all three on
the Swift side, and the string-ownership query — and enum generation aborts on
any named-field variant; the exception (see the counterexample) is
`convert_ffi_expression_to_rust_type`, which never inspects the shape. -/
theorem unsupported_shape_aborts (s : SharedStruct) (hT : s.is_tuple = true)
    (hsh : isNamedOrUnitShape s.fields = true) (expression : String)
    (type_pos : TypePosition)
    (e : SharedEnum) (hnd : e.already_declared = false)
    (v : EnumVariant) (hv : v ∈ e.variants) (hn : isNamedShape v.fields = true) :
    s.combine_field_types_string = .error .todoUnsupported ∧
    s.ffi_name_string = .error .todoUnsupported ∧
    s.swift_name_string = .error .todoUnsupported ∧
    s.to_swift_type type_pos = .error .todoUnsupported ∧
    s.generate_prefixed_type_name_tokens = .error .todoUnsupported ∧
    s.generate_custom_rust_ffi_type = .error .todoUnsupported ∧
    s.generate_custom_c_ffi_type = .error .todoUnsupported ∧
    s.convert_rust_expression_to_ffi_type expression = .error .todoUnsupported ∧
    s.convert_swift_expression_to_ffi_type expression type_pos = .error .todoUnsupported ∧
    s.convert_swift_to_ffi_repr expression = .error .todoUnsupported ∧
    s.convert_ffi_expression_to_swift expression = .error .todoUnsupported ∧
    s.convert_ffi_expression_to_swift_type expression type_pos = .error .todoUnsupported ∧
    s.contains_owned_string_recursive = .error .todoUnsupported ∧
    generate_shared_enum_tokens e = .error .todoUnsupported := by
  have hcomb : s.combine_field_types_string = .error .todoUnsupported := by
    cases hfs : s.fields with
    | Named fs => simp [SharedStruct.combine_field_types_string, hfs]
    | Unnamed fs => rw [hfs] at hsh; simp [isNamedOrUnitShape] at hsh
    | Unit => simp [SharedStruct.combine_field_types_string, hfs]
  have hcsn : s.combine_field_types_swift_name = .error .todoUnsupported := by
    cases hfs : s.fields with
    | Named fs => simp [SharedStruct.combine_field_types_swift_name, hfs]
    | Unnamed fs => rw [hfs] at hsh; simp [isNamedOrUnitShape] at hsh
    | Unit => simp [SharedStruct.combine_field_types_swift_name, hfs]
  have hcstp : s.combine_field_types_swift_name_with_type_pos type_pos
      = .error .todoUnsupported := by
    cases hfs : s.fields with
    | Named fs => simp [SharedStruct.combine_field_types_swift_name_with_type_pos, hfs]
    | Unnamed fs => rw [hfs] at hsh; simp [isNamedOrUnitShape] at hsh
    | Unit => simp [SharedStruct.combine_field_types_swift_name_with_type_pos, hfs]
  have hsn : s.swift_name_string = .error .todoUnsupported := by
    simp [SharedStruct.swift_name_string, hT, hcsn]
  have hffi : s.ffi_name_string = .error .todoUnsupported := by
    simp [SharedStruct.ffi_name_string, hT, hcomb]
  have hoe : s.only_encoding = .ok none ∨ s.only_encoding = .error .todoUnsupported := by
    by_cases hc : (!s.fields.is_empty || s.already_declared) = true
    · left; simp [SharedStruct.only_encoding, hc]
    · right; simp [SharedStruct.only_encoding, hc, hsn]
  refine ⟨hcomb, hffi, hsn, ?_, ?_, ?_, ?_, ?_, ?_, ?_, ?_, ?_, ?_, ?_⟩
  · simp [SharedStruct.to_swift_type, hT, hcstp]
  · simp [SharedStruct.generate_prefixed_type_name_tokens, hT, hcomb]
  · simp [SharedStruct.generate_custom_rust_ffi_type, hT, hcomb]
  · simp [SharedStruct.generate_custom_c_ffi_type, hT, hcomb]
  · rcases hoe with hoe | hoe
    · simp [SharedStruct.convert_rust_expression_to_ffi_type, hoe, hT, hcomb]
    · simp [SharedStruct.convert_rust_expression_to_ffi_type, hoe]
  · cases hfs : s.fields with
    | Named fs => simp [SharedStruct.convert_swift_expression_to_ffi_type, hT, hfs]
    | Unnamed fs => rw [hfs] at hsh; simp [isNamedOrUnitShape] at hsh
    | Unit => simp [SharedStruct.convert_swift_expression_to_ffi_type, hT, hfs]
  · simp [SharedStruct.convert_swift_to_ffi_repr, hffi]
  · simp [SharedStruct.convert_ffi_expression_to_swift, hsn]
  · rcases hoe with hoe | hoe
    · cases hfs : s.fields with
      | Named fs =>
          simp [SharedStruct.convert_ffi_expression_to_swift_type, hoe, hT, hfs]
      | Unnamed fs => rw [hfs] at hsh; simp [isNamedOrUnitShape] at hsh
      | Unit =>
          simp [SharedStruct.convert_ffi_expression_to_swift_type, hoe, hT, hfs]
    · simp [SharedStruct.convert_ffi_expression_to_swift_type, hoe]
  · cases hfs : s.fields with
    | Named fs => simp [SharedStruct.contains_owned_string_recursive, hT, hfs]
    | Unnamed fs => rw [hfs] at hsh; simp [isNamedOrUnitShape] at hsh
    | Unit => simp [SharedStruct.contains_owned_string_recursive, hT, hfs]
  · have hnt : EnumVariant.native_token v = .error .todoUnsupported := by
      cases hvf : v.fields with
      | Named fs => simp [EnumVariant.native_token, hvf]
      | Unnamed fs => rw [hvf] at hn; simp [isNamedShape] at hn
      | Unit => rw [hvf] at hn; simp [isNamedShape] at hn
    have hmap := exceptMapList_todo_of_mem hv hnt
    simp [generate_shared_enum_tokens, hnd, hmap]

/-- C9 witness: the conclusions at a named-field tuple and at the
integration-test enum `EnumWithNamedData`, whose first variant has named
fields. -/
theorem unsupported_shape_aborts_witness :
    namedFieldTuple.combine_field_types_string = .error .todoUnsupported ∧
    namedFieldTuple.ffi_name_string = .error .todoUnsupported ∧
    namedFieldTuple.swift_name_string = .error .todoUnsupported ∧
    namedFieldTuple.to_swift_type .SharedStructField = .error .todoUnsupported ∧
    namedFieldTuple.generate_prefixed_type_name_tokens = .error .todoUnsupported ∧
    namedFieldTuple.generate_custom_rust_ffi_type = .error .todoUnsupported ∧
    namedFieldTuple.generate_custom_c_ffi_type = .error .todoUnsupported ∧
    namedFieldTuple.convert_rust_expression_to_ffi_type "EXPR"
      = .error .todoUnsupported ∧
    namedFieldTuple.convert_swift_expression_to_ffi_type "EXPR" .SharedStructField
      = .error .todoUnsupported ∧
    namedFieldTuple.convert_swift_to_ffi_repr "EXPR" = .error .todoUnsupported ∧
    namedFieldTuple.convert_ffi_expression_to_swift "EXPR" = .error .todoUnsupported ∧
    namedFieldTuple.convert_ffi_expression_to_swift_type "EXPR" .SharedStructField
      = .error .todoUnsupported ∧
    namedFieldTuple.contains_owned_string_recursive = .error .todoUnsupported ∧
    generate_shared_enum_tokens enumWithNamedData = .error .todoUnsupported :=
  unsupported_shape_aborts namedFieldTuple rfl rfl "EXPR" .SharedStructField
    enumWithNamedData rfl
    { name := "TwoFields"
      fields := .Named [ { name := "hello", ty := .text }, { name := "data_u8", ty := .u8 } ] }
    (by decide) rfl

/-- C9 counterexample: the unit-field tuple is an unsupported declaration —
its symbol naming aborts — yet `convert_ffi_expression_to_rust_type` still
produces the artifact `()` instead of aborting, so not every output path
aborts. -/
theorem unit_tuple_produces_artifact :
    isNamedOrUnitShape unitFieldTuple.fields = true ∧
    unitFieldTuple.convert_ffi_expression_to_rust_type "EXPR" = "()" ∧
    unitFieldTuple.ffi_name_string = .error .todoUnsupported :=
  ⟨rfl, rfl, rfl⟩

/-- C10: the equality on struct declarations ignores the `is_tuple` flag: the
two declarations below differ only in `is_tuple`, compare equal, and yet
receive different mangled FFI symbols. -/
theorem shared_struct_eq_ignores_is_tuple :
    SharedStruct.beq plainUnnamedStruct tupleUnnamedStruct = true ∧
    plainUnnamedStruct.is_tuple = false ∧
    tupleUnnamedStruct.is_tuple = true ∧
    plainUnnamedStruct.ffi_name_string = .ok "__swift_bridge__$tuple" ∧
    tupleUnnamedStruct.ffi_name_string = .ok "__swift_bridge__$tuple$i32" ∧
    plainUnnamedStruct.ffi_name_string ≠ tupleUnnamedStruct.ffi_name_string :=
  ⟨rfl, rfl, rfl, rfl, rfl, by decide⟩

end SwiftBridge
